import Mathlib

/-!
Verification of the shellsense tool-calling pipeline.

This file gives a shallow embedding of the parts of the repository that the
claims are about:

- shellsense/tools/tool_manager.py : ToolManager.call_tool, ToolManager.process_query
- shellsense/tools/manager.py : the legacy ToolManager.call_tool and process_query
- shellsense/ai/providers/cloudflare_provider.py : CloudflareProvider.get_tool_call_response
- shellsense/ai/providers/openai_provider.py : OpenAIProvider.get_tool_call_response
- shellsense/ai/providers/gemini_provider.py : GeminiProvider.get_tool_call_response
- shellsense/ai/providers/friendly_ai_response.py : FriendlyAiResponse.get_friendly_response

Python dictionaries, lists and scalars are modelled by the inductive type
PyVal; tool invocation is modelled as a function into Except so that a
raised exception is an explicit error value; the Summarizer and the remote
chat endpoints are abstracted as function parameters, and each embedded
operation additionally records which Summarizer or provider calls it made so
that claims about "never invoked" or "invoked before" are statable.
-/

namespace ShellSense

/-- A Python value: None, bool, int, str, list or dict (a dict is a list of
key/value pairs in insertion order). -/
inductive PyVal where
  | vNone
  | vBool (b : Bool)
  | vInt (n : Int)
  | vStr (s : String)
  | vList (xs : List PyVal)
  | vDict (kvs : List (String × PyVal))

/-- Python dict lookup with a default: d.get(key, default). -/
def getD (kvs : List (String × PyVal)) (key : String) (default : PyVal) : PyVal :=
  match kvs.find? (fun kv => kv.1 == key) with
  | some kv => kv.2
  | none => default

/-- Python membership test on a dict of arguments: key in arguments. -/
def hasArg (arguments : List (String × PyVal)) (key : String) : Bool :=
  arguments.any (fun kv => kv.1 == key)

/-- Escaping applied by json.dumps to the characters of a string
(ensure_ascii=False, so non-ASCII characters pass through unescaped). -/
def jsonEscapeChar (c : Char) : String :=
  if c = '\\' then "\\\\"
  else if c = '\"' then "\\\""
  else if c = '\n' then "\\n"
  else if c = '\t' then "\\t"
  else if c = '\r' then "\\r"
  else String.singleton c

/-- json.dumps escaping of a whole string, without the surrounding quotes. -/
def jsonEscape (s : String) : String :=
  String.join (s.data.map jsonEscapeChar)

mutual

/-- json.dumps(v, ensure_ascii=False): the JSON text of a Python value with
the default separators (", " between items and ": " after keys). -/
def jsonDumps : PyVal → String
  | .vNone => "null"
  | .vBool b => if b then "true" else "false"
  | .vInt n => toString n
  | .vStr s => "\"" ++ jsonEscape s ++ "\""
  | .vList xs => "[" ++ jsonDumpsList xs ++ "]"
  | .vDict kvs => "\x7b" ++ jsonDumpsKVs kvs ++ "\x7d"

/-- JSON text of the elements of a list, joined by ", ". -/
def jsonDumpsList : List PyVal → String
  | [] => ""
  | [x] => jsonDumps x
  | x :: y :: xs => jsonDumps x ++ ", " ++ jsonDumpsList (y :: xs)

/-- JSON text of the entries of a dict, joined by ", ". -/
def jsonDumpsKVs : List (String × PyVal) → String
  | [] => ""
  | [(k, v)] => "\"" ++ jsonEscape k ++ "\": " ++ jsonDumps v
  | (k, v) :: y :: xs =>
      "\"" ++ jsonEscape k ++ "\": " ++ jsonDumps v ++ ", " ++ jsonDumpsKVs (y :: xs)

end

mutual

/-- Python repr(v) for the modelled values (str uses single quotes, True,
False, None capitalized, list and dict in Python literal syntax). -/
def pyRepr : PyVal → String
  | .vNone => "None"
  | .vBool b => if b then "True" else "False"
  | .vInt n => toString n
  | .vStr s => "\x27" ++ s ++ "\x27"
  | .vList xs => "[" ++ pyReprList xs ++ "]"
  | .vDict kvs => "\x7b" ++ pyReprKVs kvs ++ "\x7d"

/-- repr of the elements of a list, joined by ", ". -/
def pyReprList : List PyVal → String
  | [] => ""
  | [x] => pyRepr x
  | x :: y :: xs => pyRepr x ++ ", " ++ pyReprList (y :: xs)

/-- repr of the entries of a dict, joined by ", ". -/
def pyReprKVs : List (String × PyVal) → String
  | [] => ""
  | [(k, v)] => "\x27" ++ k ++ "\x27: " ++ pyRepr v
  | (k, v) :: y :: xs => "\x27" ++ k ++ "\x27: " ++ pyRepr v ++ ", " ++ pyReprKVs (y :: xs)

end

/-- Python str.strip() with no arguments: whitespace removed from both
ends. -/
def pyStrip (s : String) : String :=
  String.mk (((s.data.dropWhile Char.isWhitespace).reverse.dropWhile
    Char.isWhitespace).reverse)

/-- Python str(v): a string is itself, every other value prints as repr. -/
def pyStr (v : PyVal) : String :=
  match v with
  | .vStr s => s
  | _ => pyRepr v

/-- Python repr of a list of strings, as produced by an f-string holding a
list such as the missing_args list in call_tool. -/
def pyStrListRepr (xs : List String) : String :=
  "[" ++ String.intercalate ", " (xs.map (fun s => "\x27" ++ s ++ "\x27")) ++ "]"

/-!
## Tools and the registry (shellsense/tools/tool_manager.py)

A tool instance is modelled by the data call_tool reads from it: the
required-parameter list of its schema (get_schema()["required"], defaulted
to [] by .get) and its invoke method. invoke is a function into Except: an
ok value is a normal return, an error value is a raised exception carrying
str(e).
-/

/-- A tool as seen by ToolManager.call_tool: the schema's required list and
the invoke method (Except.error models a raised exception). -/
structure Tool where
  required : List String
  invoke : List (String × PyVal) → Except String PyVal

/-- self.tool_mapping: the tool registry mapping names to tool instances. -/
def lookupTool (registry : List (String × Tool)) (name : String) : Option Tool :=
  match registry.find? (fun kv => kv.1 == name) with
  | some kv => some kv.2
  | none => none

/-- An error result dict of shape containing one error key, as synthesized by
call_tool for a failed tool call. -/
def errDict (msg : String) : PyVal :=
  .vDict [("error", .vStr msg)]

/-- ToolManager.call_tool (tool_manager.py lines 228-277): look the tool up
in the registry; if absent return the not-found error dict; otherwise check
the schema's required arguments and return a missing-arguments error dict if
any is absent; otherwise invoke the tool, converting a raised exception into
a failed-to-execute error dict. -/
def call_tool (registry : List (String × Tool)) (tool_name : String)
    (arguments : List (String × PyVal)) : PyVal :=
  match lookupTool registry tool_name with
  | none => errDict ("Tool \x27" ++ tool_name ++ "\x27 not found")
  | some tool =>
    let required_args := tool.required
    if required_args.all (fun arg => hasArg arguments arg) then
      match tool.invoke arguments with
      | .ok result => result
      | .error e =>
          errDict ("Failed to execute tool \x27" ++ tool_name ++ "\x27: " ++ e)
    else
      errDict ("Missing required arguments: " ++
        pyStrListRepr (required_args.filter (fun arg => !hasArg arguments arg)))

/-!
## ToolManager.process_query (tool_manager.py lines 137-226)
-/

/-- A normalized tool call request: a name and an arguments mapping. -/
structure ToolCall where
  name : String
  arguments : List (String × PyVal)

/-- The provider response as read by process_query:
response.get("result", \x7b\x7d).get("response", "") and
response.get("result", \x7b\x7d).get("tool_calls", []). -/
structure ProviderResult where
  response : String
  tool_calls : List ToolCall

/-- Output sanitization in process_query (lines 192-202): dict and list
results are JSON encoded, every other value goes through str. -/
def serializeOutput (raw_output : PyVal) : String :=
  match raw_output with
  | .vDict _ => jsonDumps raw_output
  | .vList _ => jsonDumps raw_output
  | _ => pyStr raw_output

/-- One entry of tool_outputs for a tool call (lines 180-204): a call whose
name is falsy (missing or empty) is skipped; otherwise the serialized
call_tool result is preceded by the per-tool delimiter naming the tool. -/
def toolOutputEntry (registry : List (String × Tool)) (c : ToolCall) :
    Option String :=
  if c.name = "" then none
  else some ("Tool " ++ c.name ++ " output:\n" ++
    serializeOutput (call_tool registry c.name c.arguments))

/-- The outcome of one process_query run: the returned string together with
the list of (user_query, tool_output) pairs passed to
FriendlyAiResponse.get_friendly_response during the run. -/
structure QueryRun where
  result : String
  summarizerCalls : List (String × String)

/-- ToolManager.process_query (tool_manager.py): when the provider returned
tool calls, execute them in order, join the delimited serialized outputs
with blank lines and return the Summarizer's answer on that text; otherwise
return the provider's response text. -/
def processQuery (registry : List (String × Tool))
    (summarize : String → String → String) (query : String)
    (response : ProviderResult) : QueryRun :=
  if response.tool_calls.isEmpty then
    { result := response.response, summarizerCalls := [] }
  else
    let combined_output :=
      String.intercalate "\n\n" (response.tool_calls.filterMap (toolOutputEntry registry))
    { result := summarize query combined_output
      summarizerCalls := [(query, combined_output)] }

/-!
## The legacy ToolManager (shellsense/tools/manager.py)
-/

/-- The legacy ToolManager.call_tool (manager.py lines 157-178): no
required-argument validation; a found tool is invoked with exceptions turned
into a failed-to-invoke error dict, and an unknown name yields a not-found
error dict whose message ends in a period. -/
def legacyCallTool (registry : List (String × Tool)) (tool_name : String)
    (arguments : List (String × PyVal)) : PyVal :=
  match lookupTool registry tool_name with
  | some tool =>
    match tool.invoke arguments with
    | .ok result => result
    | .error e =>
        errDict ("Failed to invoke tool \x27" ++ tool_name ++ "\x27: " ++ e)
  | none => errDict ("Tool \x27" ++ tool_name ++ "\x27 not found.")

/-- The result field of the parsed legacy payload:
result.get("response", None) keeps an absent response distinguishable from
an empty one, and result.get("tool_calls", []). -/
structure LegacyResult where
  response : Option String
  tool_calls : List ToolCall

/-- Truthiness of the legacy direct response: if ai_response evaluates a
str as truthy exactly when non-empty and None as falsy. -/
def legacyResponseTruthy : Option String → Bool
  | some s => s ≠ ""
  | none => false

/-- The legacy per-call aggregation entry (manager.py lines 112-120): the
raw output is rendered through an f-string, so through str. -/
def legacyOutputEntry (registry : List (String × Tool)) (c : ToolCall) : String :=
  "Tool: " ++ c.name ++ "\nOutput: " ++
    pyStr (legacyCallTool registry c.name c.arguments)

/-- The legacy ToolManager.process_query (manager.py lines 60-155) after the
HTTP payload is parsed: tool calls present run every call (no name check)
and summarize the aggregated text; otherwise a truthy direct response is
returned; otherwise the Summarizer is invoked on the raw response body
(response.text) and its answer returned. -/
def legacyProcessQuery (registry : List (String × Tool))
    (summarize : String → String → String) (user_query : String)
    (rawResponseText : String) (result : LegacyResult) : QueryRun :=
  if result.tool_calls.isEmpty then
    if legacyResponseTruthy result.response then
      { result := result.response.getD "", summarizerCalls := [] }
    else
      { result := summarize user_query rawResponseText
        summarizerCalls := [(user_query, rawResponseText)] }
  else
    let combined_tool_output :=
      String.intercalate "\n\n" (result.tool_calls.map (legacyOutputEntry registry))
    { result := summarize user_query combined_tool_output
      summarizerCalls := [(user_query, combined_tool_output)] }

/-!
## CloudflareProvider.get_tool_call_response (cloudflare_provider.py lines 125-245)

The upstream HTTP layer is abstracted away: the embedding starts from the
parsed JSON body, read as result.get("response", "") and
result.get("tool_calls", []).
-/

/-- A tool schema entry as sent to the provider: its name and the required
list of its parameters object (tool["parameters"].get("required", [])). -/
structure ToolSchema where
  name : String
  required : List String

/-- A raw tool call from the upstream payload: tool_call.get("name") (which
may be absent) and tool_call.get("arguments", \x7b\x7d). -/
structure RawToolCall where
  name : Option String
  arguments : List (String × PyVal)

/-- The parsed upstream Cloudflare body, reduced to the fields the adapter
reads. -/
structure CFUpstream where
  response : String
  tool_calls : List RawToolCall

/-- The validation loop of CloudflareProvider.get_tool_call_response (lines
190-223): a call whose name is not among the names of the tools sent is
skipped; the schema of the named tool is looked up (a miss skips); a call
missing one of that schema's required arguments is skipped; survivors are
collected in order as normalized name/arguments pairs. -/
def cfValidateLoop (tools : List ToolSchema) : List RawToolCall → List ToolCall
  | [] => []
  | tc :: rest =>
    match tc.name with
    | none => cfValidateLoop tools rest
    | some tool_name =>
      if (tools.map (fun t => t.name)).contains tool_name then
        match tools.find? (fun t => t.name == tool_name) with
        | none => cfValidateLoop tools rest
        | some tool_schema =>
          if tool_schema.required.all (fun arg => hasArg tc.arguments arg) then
            { name := tool_name, arguments := tc.arguments } :: cfValidateLoop tools rest
          else
            cfValidateLoop tools rest
      else
        cfValidateLoop tools rest

/-- CloudflareProvider.get_tool_call_response (lines 184-236): validate the
upstream tool calls against the tools sent and return the standard format,
whose response text is blanked whenever any valid tool call survived. -/
def cfGetToolCallResponse (tools : List ToolSchema) (data : CFUpstream) :
    ProviderResult :=
  let valid_tool_calls := cfValidateLoop tools data.tool_calls
  { response := if valid_tool_calls.isEmpty then data.response else ""
    tool_calls := valid_tool_calls }

/-!
## OpenAIProvider.get_tool_call_response (openai_provider.py lines 102-150)
-/

/-- OpenAIProvider.get_tool_call_response: the method sends the request and
returns the upstream response object unchanged; there is no validation step
and no re-packaging into the standard result format. -/
def openaiGetToolCallResponse (response : PyVal) : PyVal :=
  response

/-- Serialization of a normalized tool call into the standard dict shape,
used to compare the adapters' outputs against the documented
ProviderResponse shape. -/
def toolCallToPyVal (c : ToolCall) : PyVal :=
  .vDict [("name", .vStr c.name), ("arguments", .vDict c.arguments)]

/-- Serialization of a normalized provider result into the standard
ProviderResponse dict shape with top-level result holding response and
tool_calls. -/
def providerResultToPyVal (pr : ProviderResult) : PyVal :=
  .vDict [("result", .vDict
    [("response", .vStr pr.response),
     ("tool_calls", .vList (pr.tool_calls.map toolCallToPyVal))])]

/-- Whether a value has the normalized ProviderResponse shape: a dict whose
result key holds a dict carrying a response entry and a list-valued
tool_calls entry. -/
def isNormalizedProviderResponse (v : PyVal) : Bool :=
  match v with
  | .vDict kvs =>
    match getD kvs "result" .vNone with
    | .vDict r =>
      (r.find? (fun kv => kv.1 == "response")).isSome &&
      (match getD r "tool_calls" .vNone with
       | .vList _ => true
       | _ => false)
    | _ => false
  | _ => false

/-!
## GeminiProvider.get_tool_call_response (gemini_provider.py lines 152-289)

The extraction walks response.candidates[0].content.parts, taking text
parts into the response string and function_call parts into the tool call
list. The args container of a function call is modelled by an inductive
recording whether it already is a dict, converts to one, or fails to
convert (dict(...) raising).
-/

/-- The args attribute of a Gemini function call: absent or falsy, already a
dict, convertible to a dict, or failing conversion. -/
inductive GeminiArgs where
  | absent
  | asDict (kvs : List (String × PyVal))
  | convertible (kvs : List (String × PyVal))
  | unconvertible

/-- A Gemini function_call part payload: the call name (already passed
through str by the adapter) and its args container. -/
structure GeminiFunctionCall where
  name : String
  args : GeminiArgs

/-- One part of a Gemini candidate content: its text (empty string models a
missing or falsy text attribute) and its optional function call. -/
structure GeminiPart where
  text : String
  function_call : Option GeminiFunctionCall

/-- One Gemini candidate; none models a candidate without truthy content,
some the list content.parts. -/
structure GeminiCandidate where
  content : Option (List GeminiPart)

/-- A Gemini response: its candidate list. -/
structure GeminiResponse where
  candidates : List GeminiCandidate

/-- Argument coercion of the adapter (lines 247-259): a dict is kept, a
non-dict container goes through dict(...) and a failed conversion leaves the
empty mapping that args was initialized to. -/
def coerceArgs : GeminiArgs → List (String × PyVal)
  | .absent => []
  | .asDict kvs => kvs
  | .convertible kvs => kvs
  | .unconvertible => []

/-- Text accumulation over the parts (lines 239-241): each truthy text is
appended followed by a single space. -/
def geminiCollectText : List GeminiPart → String
  | [] => ""
  | p :: rest =>
      (if p.text = "" then "" else p.text ++ " ") ++ geminiCollectText rest

/-- Function-call accumulation over the parts (lines 243-264): every part
with a truthy function_call contributes one normalized tool call, with its
args coerced. -/
def geminiCollectCalls : List GeminiPart → List ToolCall
  | [] => []
  | p :: rest =>
    match p.function_call with
    | some fc => { name := fc.name, arguments := coerceArgs fc.args } :: geminiCollectCalls rest
    | none => geminiCollectCalls rest

/-- GeminiProvider.get_tool_call_response (lines 224-282) after the upstream
call: start from the empty standard result, walk the first candidate's
parts when present, and strip the accumulated response text. The tools
argument only shapes the outgoing request (function declarations and
prompt); the extraction of the reply never consults it. -/
def geminiGetToolCallResponse (_tools : List ToolSchema)
    (response : GeminiResponse) : ProviderResult :=
  match response.candidates with
  | [] => { response := "", tool_calls := [] }
  | candidate :: _ =>
    match candidate.content with
    | none => { response := "", tool_calls := [] }
    | some parts =>
      { response := pyStrip (geminiCollectText parts)
        tool_calls := geminiCollectCalls parts }

/-!
## FriendlyAiResponse.get_friendly_response (friendly_ai_response.py lines 65-170)

The Cloudflare chat call is abstracted as an input: the reply the chat
endpoint would hand back. The run records how many provider calls were made
so that raising before any provider call is statable; the outcome is an
Except whose error constructor models a raised exception.
-/

/-- The value returned by CloudflareProvider.chat as seen by
get_friendly_response: a string, a dict, or an unexpected other type whose
only observable trait here is its truthiness. -/
inductive ChatReply where
  | rStr (s : String)
  | rDict (kvs : List (String × PyVal))
  | rOther (truthy : Bool)

/-- Python truthiness of the chat reply: empty strings and empty dicts are
falsy. -/
def chatReplyTruthy : ChatReply → Bool
  | .rStr s => s ≠ ""
  | .rDict kvs => !kvs.isEmpty
  | .rOther t => t

/-- The fixed fallback when no proper response content was produced. -/
def apologyNoResponse : String :=
  "I apologize, but I couldn\x27t generate a proper response at this time. Please try again."

/-- The fixed fallback for an unexpected response type. -/
def apologyBadFormat : String :=
  "I apologize, but I received an unexpected response format. Please try again."

/-- The final content validation (lines 144-155): a falsy or non-string
result yields the no-response apology, otherwise the stripped result. -/
def validateResult : PyVal → Except String String
  | .vStr s => if s = "" then Except.ok apologyNoResponse else Except.ok (pyStrip s)
  | _ => Except.ok apologyNoResponse

/-- Reply handling of get_friendly_response (lines 118-155): a falsy reply
yields the no-response apology; a dict reply reads
result.get("result", \x7b\x7d).get("response", "") (raising when the result
entry is not a dict, modelled as an error); a string reply is the result
itself; any other type yields the bad-format apology without raising. -/
def handleChatReply (reply : ChatReply) : Except String String :=
  if !chatReplyTruthy reply then Except.ok apologyNoResponse
  else
    match reply with
    | .rDict kvs =>
      match getD kvs "result" (.vDict []) with
      | .vDict inner => validateResult (getD inner "response" (.vStr ""))
      | _ => Except.error "AttributeError"
    | .rStr s => validateResult (.vStr s)
    | .rOther _ => Except.ok apologyBadFormat

/-- The outcome of one get_friendly_response run: how many chat calls were
made and the returned string or raised exception. -/
structure FriendlyRun where
  providerCalls : Nat
  outcome : Except String String

/-- FriendlyAiResponse.get_friendly_response (lines 65-170): an empty
user_query or tool_output raises ValueError before the provider is called;
otherwise the chat endpoint is called once and its reply handled. -/
def getFriendlyResponse (user_query tool_output : String)
    (chatReply : ChatReply) : FriendlyRun :=
  if user_query = "" || tool_output = "" then
    { providerCalls := 0
      outcome := Except.error "User query and tool output are required" }
  else
    { providerCalls := 1, outcome := handleChatReply chatReply }

/-!
## Concrete sample values used by the closed witness and counterexample
statements
-/

/-- A sample tool with one required argument that succeeds with a dict. -/
def demoGoodTool : Tool :=
  { required := ["symbol"]
    invoke := fun _ => Except.ok (.vDict [("price", .vInt 123)]) }

/-- A sample tool whose invoke always raises. -/
def demoBadTool : Tool :=
  { required := [], invoke := fun _ => Except.error "boom" }

/-- A sample tool that succeeds with a plain string. -/
def demoEchoTool : Tool :=
  { required := [], invoke := fun _ => Except.ok (.vStr "hello") }

/-- A sample tool registry. -/
def demoRegistry : List (String × Tool) :=
  [("getCurrentStockPrice", demoGoodTool),
   ("badTool", demoBadTool),
   ("echoTool", demoEchoTool)]

/-- A sample Summarizer that records both of its inputs in its output. -/
def demoSummarize : String → String → String :=
  fun q t => "SUMMARY(" ++ q ++ "|" ++ t ++ ")"

/-- A sample tool schema list sent with a request. -/
def demoToolSchemas : List ToolSchema :=
  [{ name := "getCurrentStockPrice", required := ["symbol"] }]

/-- An OpenAI chat-completion payload holding exactly one tool call and no
assistant text, in the upstream shape OpenAI returns. -/
def openaiSamplePayload : PyVal :=
  .vDict
    [("id", .vStr "chatcmpl-1"),
     ("choices", .vList
       [.vDict
         [("message", .vDict
           [("content", .vNone),
            ("tool_calls", .vList
              [.vDict
                [("type", .vStr "function"),
                 ("function", .vDict
                   [("name", .vStr "getCurrentStockPrice"),
                    ("arguments", .vStr "\x7b\"symbol\": \"AAPL\"\x7d")])]])])]])]

/-- A Gemini response carrying two function calls a validating adapter would
drop: one naming a tool absent from demoToolSchemas, one naming the known
tool but missing its required symbol argument. -/
def geminiInvalidResponse : GeminiResponse :=
  { candidates :=
      [{ content := some
          [{ text := ""
             function_call := some { name := "bogusTool", args := .asDict [] } },
           { text := ""
             function_call := some { name := "getCurrentStockPrice", args := .absent } }] }] }

/-- A Gemini response carrying exactly one function call, its args already a
dict holding the known tool's required symbol argument, and no text. -/
def geminiSingleCallResponse : GeminiResponse :=
  { candidates :=
      [{ content := some
          [{ text := ""
             function_call := some { name := "getCurrentStockPrice",
                                     args := .asDict [("symbol", .vStr "AAPL")] } }] }] }

/-- A Gemini response whose only function call carries an args container
that fails dict conversion. -/
def geminiUnconvertibleResponse : GeminiResponse :=
  { candidates :=
      [{ content := some
          [{ text := ""
             function_call := some { name := "getCurrentStockPrice",
                                     args := .unconvertible } }] }] }

/-!
## Helper lemmas
-/

/-- When every tool call carries a non-empty name, no call is skipped: the
collected tool_outputs list is exactly the per-call delimited serialized
outputs in call order. -/
theorem toolOutputs_all_named (registry : List (String × Tool))
    (calls : List ToolCall) (h : ∀ c ∈ calls, c.name ≠ "") :
    calls.filterMap (toolOutputEntry registry) =
      calls.map (fun c => "Tool " ++ c.name ++ " output:\n" ++
        serializeOutput (call_tool registry c.name c.arguments)) := by
  induction calls with
  | nil => rfl
  | cons c rest ih =>
    have hc : c.name ≠ "" := h c (List.mem_cons_self c rest)
    have hrest : ∀ x ∈ rest, x.name ≠ "" :=
      fun x hx => h x (List.mem_cons_of_mem c hx)
    simp [List.filterMap_cons, toolOutputEntry, hc, ih hrest]

/-- Gemini call collection distributes over list append. -/
theorem geminiCollectCalls_append (xs ys : List GeminiPart) :
    geminiCollectCalls (xs ++ ys) =
      geminiCollectCalls xs ++ geminiCollectCalls ys := by
  induction xs with
  | nil => rfl
  | cons p rest ih =>
    cases hp : p.function_call with
    | none => simp [geminiCollectCalls, hp, ih]
    | some fc => simp [geminiCollectCalls, hp, ih]

/-- Every tool call surviving the Cloudflare validation loop names a sent
tool whose required arguments it satisfies. -/
theorem cfValidateLoop_mem (tools : List ToolSchema) :
    ∀ (raw : List RawToolCall) (c : ToolCall),
      c ∈ cfValidateLoop tools raw →
      ∃ schema, schema ∈ tools ∧ schema.name = c.name ∧
        schema.required.all (fun arg => hasArg c.arguments arg) = true := by
  intro raw
  induction raw with
  | nil => intro c hc; simp [cfValidateLoop] at hc
  | cons tc rest ih =>
    intro c hc
    cases htc : tc.name with
    | none =>
      rw [cfValidateLoop, htc] at hc
      exact ih c hc
    | some n =>
      rw [cfValidateLoop, htc] at hc
      dsimp only at hc
      by_cases hcont : (tools.map (fun t => t.name)).contains n
      · rw [if_pos hcont] at hc
        cases hfind : tools.find? (fun t => t.name == n) with
        | none => rw [hfind] at hc; exact ih c hc
        | some schema =>
          rw [hfind] at hc
          dsimp only at hc
          by_cases hreq : schema.required.all (fun arg => hasArg tc.arguments arg) = true
          · rw [if_pos hreq] at hc
            rcases List.mem_cons.mp hc with hceq | hmem
            · subst hceq
              refine ⟨schema, List.mem_of_find?_eq_some hfind, ?_, hreq⟩
              have := List.find?_some hfind
              simpa using this
            · exact ih c hmem
          · rw [if_neg hreq] at hc
            exact ih c hc
      · rw [if_neg hcont] at hc
        exact ih c hc

/-- providerResultToPyVal always yields the normalized ProviderResponse
shape. -/
theorem providerResultToPyVal_normalized (pr : ProviderResult) :
    isNormalizedProviderResponse (providerResultToPyVal pr) = true := rfl

/-!
## Claim theorems
-/

/-- C1: per-tool-call failures in process_query are localized and never
abort the batch: an unknown tool name makes call_tool return the not-found
error dict, a raised exception from invoke makes call_tool return an
error-shaped dict for that call only, and in both cases every tool call of
the batch (with its truthy name) is still executed, its delimited output
appearing in the aggregated text in order. -/
theorem call_tool_failures_localized
    (registry : List (String × Tool)) (summarize : String → String → String)
    (query tool_name : String) (arguments : List (String × PyVal)) :
    (lookupTool registry tool_name = none →
      call_tool registry tool_name arguments =
        errDict ("Tool \x27" ++ tool_name ++ "\x27 not found")) ∧
    (∀ (tool : Tool) (e : String), lookupTool registry tool_name = some tool →
      tool.required.all (fun arg => hasArg arguments arg) = true →
      tool.invoke arguments = Except.error e →
      call_tool registry tool_name arguments =
        errDict ("Failed to execute tool \x27" ++ tool_name ++ "\x27: " ++ e)) ∧
    (∀ calls : List ToolCall, (∀ c ∈ calls, c.name ≠ "") → calls ≠ [] →
      (processQuery registry summarize query
        { response := "", tool_calls := calls }).summarizerCalls =
        [(query, String.intercalate "\n\n" (calls.map (fun c =>
          "Tool " ++ c.name ++ " output:\n" ++
            serializeOutput (call_tool registry c.name c.arguments))))]) := by
  refine ⟨?_, ?_, ?_⟩
  · intro h
    simp [call_tool, h]
  · intro tool e hl hreq hinv
    simp [call_tool, hl, hreq, hinv]
  · intro calls hnames hne
    cases calls with
    | nil => exact absurd rfl hne
    | cons c rest =>
      simp only [processQuery, List.isEmpty_cons, if_false, Bool.false_eq_true]
      rw [toolOutputs_all_named registry (c :: rest) hnames]

/-- C1 witness: in the demo registry a missing tool yields the not-found
dict, a raising tool yields the failed-to-execute dict, and a batch holding
both failures plus a succeeding tool still aggregates all three outputs in
order. -/
theorem call_tool_failures_localized_witness :
    call_tool demoRegistry "nope" [] =
      errDict ("Tool \x27" ++ "nope" ++ "\x27 not found") ∧
    call_tool demoRegistry "badTool" [] =
      errDict ("Failed to execute tool \x27" ++ "badTool" ++ "\x27: " ++ "boom") ∧
    (processQuery demoRegistry demoSummarize "q"
      { response := ""
        tool_calls := [{ name := "nope", arguments := [] },
                       { name := "badTool", arguments := [] },
                       { name := "echoTool", arguments := [] }] }).summarizerCalls =
      [("q", String.intercalate "\n\n"
        (([{ name := "nope", arguments := [] },
           { name := "badTool", arguments := [] },
           { name := "echoTool", arguments := [] }] : List ToolCall).map (fun c =>
          "Tool " ++ c.name ++ " output:\n" ++
            serializeOutput (call_tool demoRegistry c.name c.arguments))))] := by
  refine ⟨?_, ?_, ?_⟩
  · exact (call_tool_failures_localized demoRegistry demoSummarize "q" "nope" []).1 rfl
  · exact (call_tool_failures_localized demoRegistry demoSummarize "q" "badTool" []).2.1
      demoBadTool "boom" rfl rfl rfl
  · exact (call_tool_failures_localized demoRegistry demoSummarize "q" "unused" []).2.2
      [{ name := "nope", arguments := [] },
       { name := "badTool", arguments := [] },
       { name := "echoTool", arguments := [] }]
      (by intro c hc; fin_cases hc <;> decide)
      (List.cons_ne_nil _ _)

/-- C4 counterexample: with a provider response carrying neither tool calls
nor response text, the current ToolManager.process_query returns the empty
string directly and the Summarizer is never invoked — no fallback on the
raw payload happens and the caller does receive an empty string. -/
theorem process_query_empty_response_returns_empty :
    processQuery demoRegistry demoSummarize "hello"
      { response := "", tool_calls := [] } =
      { result := "", summarizerCalls := [] } := rfl

/-- C4 amended: the legacy ToolManager.process_query of manager.py, on a
payload with no tool calls and no truthy response text, invokes the
Summarizer once with the raw response body as tool output and returns its
string. -/
theorem legacy_process_query_fallback_summarizer
    (registry : List (String × Tool)) (summarize : String → String → String)
    (user_query rawResponseText : String) (result : LegacyResult)
    (hcalls : result.tool_calls = [])
    (hresp : legacyResponseTruthy result.response = false) :
    legacyProcessQuery registry summarize user_query rawResponseText result =
      { result := summarize user_query rawResponseText
        summarizerCalls := [(user_query, rawResponseText)] } := by
  obtain ⟨resp, calls⟩ := result
  simp only at hcalls hresp
  subst hcalls
  simp [legacyProcessQuery, hresp]

/-- C4 amended witness: the legacy manager on an empty result falls back to
summarizing the raw body. -/
theorem legacy_process_query_fallback_summarizer_witness :
    legacyProcessQuery demoRegistry demoSummarize "q" "RAW BODY"
      { response := none, tool_calls := [] } =
      { result := demoSummarize "q" "RAW BODY"
        summarizerCalls := [("q", "RAW BODY")] } :=
  legacy_process_query_fallback_summarizer demoRegistry demoSummarize
    "q" "RAW BODY" { response := none, tool_calls := [] } rfl rfl

/-- C5: a provider response with zero tool calls and non-empty response text
makes process_query return that text as-is, with zero Summarizer
invocations. -/
theorem process_query_direct_response_no_summarizer
    (registry : List (String × Tool)) (summarize : String → String → String)
    (query : String) (response : ProviderResult)
    (hcalls : response.tool_calls = []) (htext : response.response ≠ "") :
    processQuery registry summarize query response =
      { result := response.response, summarizerCalls := [] } := by
  simp [processQuery, hcalls]

/-- C5 witness: a Hello query with direct text is returned unchanged and the
Summarizer is never called. -/
theorem process_query_direct_response_no_summarizer_witness :
    processQuery demoRegistry demoSummarize "Hello"
      { response := "Hi there!", tool_calls := [] } =
      { result := "Hi there!", summarizerCalls := [] } :=
  process_query_direct_response_no_summarizer demoRegistry demoSummarize
    "Hello" { response := "Hi there!", tool_calls := [] } rfl (by decide)

/-- C6: a non-empty batch of provider tool calls (each carrying a non-empty
name, which the adapters guarantee) is executed strictly in order; each
result is serialized (dict and list by JSON encoding, others through str),
prefixed by the per-tool delimiter naming the tool, and the pieces are
joined in that same order into the text handed to the Summarizer. -/
theorem process_query_ordered_serialized_outputs
    (registry : List (String × Tool)) (summarize : String → String → String)
    (query : String) (response : ProviderResult)
    (hne : response.tool_calls ≠ [])
    (hnames : ∀ c ∈ response.tool_calls, c.name ≠ "") :
    processQuery registry summarize query response =
      { result := summarize query (String.intercalate "\n\n"
          (response.tool_calls.map (fun c => "Tool " ++ c.name ++ " output:\n" ++
            serializeOutput (call_tool registry c.name c.arguments))))
        summarizerCalls := [(query, String.intercalate "\n\n"
          (response.tool_calls.map (fun c => "Tool " ++ c.name ++ " output:\n" ++
            serializeOutput (call_tool registry c.name c.arguments))))] } := by
  obtain ⟨resp, calls⟩ := response
  simp only at hne hnames
  cases calls with
  | nil => exact absurd rfl hne
  | cons c rest =>
    simp only [processQuery, List.isEmpty_cons, if_false, Bool.false_eq_true]
    rw [toolOutputs_all_named registry (c :: rest) hnames]

/-- C6 witness: a two-call batch (dict result JSON-encoded, string result
through str) produces the order-preserving delimited concatenation. -/
theorem process_query_ordered_serialized_outputs_witness :
    processQuery demoRegistry demoSummarize "price then echo"
      { response := ""
        tool_calls := [{ name := "getCurrentStockPrice"
                         arguments := [("symbol", .vStr "AAPL")] },
                       { name := "echoTool", arguments := [] }] } =
      { result := demoSummarize "price then echo"
          ("Tool getCurrentStockPrice output:\n\x7b\"price\": 123\x7d\n\n" ++
           "Tool echoTool output:\nhello")
        summarizerCalls := [("price then echo",
          "Tool getCurrentStockPrice output:\n\x7b\"price\": 123\x7d\n\n" ++
          "Tool echoTool output:\nhello")] } := by
  have h := process_query_ordered_serialized_outputs demoRegistry demoSummarize
    "price then echo"
    { response := ""
      tool_calls := [{ name := "getCurrentStockPrice"
                       arguments := [("symbol", .vStr "AAPL")] },
                     { name := "echoTool", arguments := [] }] }
    (List.cons_ne_nil _ _) (by intro c hc; fin_cases hc <;> decide)
  exact h

/-- C2 counterexample: OpenAIProvider.get_tool_call_response hands back the
upstream payload unchanged, so on a payload holding exactly one tool call
and no text it does not return the normalized shape with top-level result
holding response and tool_calls. -/
theorem openai_response_not_normalized :
    openaiGetToolCallResponse openaiSamplePayload = openaiSamplePayload ∧
    isNormalizedProviderResponse (openaiGetToolCallResponse openaiSamplePayload) = false :=
  ⟨rfl, rfl⟩

/-- C2 amended: CloudflareProvider and GeminiProvider, fed an upstream
payload holding exactly one tool call (for Cloudflare one passing its
validation) and no free text, return the normalized result with exactly one
name/arguments tool call request and empty response text; OpenAIProvider
instead returns the upstream payload unchanged. -/
theorem cf_gemini_single_tool_call_normalized
    (tools : List ToolSchema) (tool_name : String)
    (arguments : List (String × PyVal)) (schema : ToolSchema)
    (fc : GeminiFunctionCall)
    (hmem : (tools.map (fun t => t.name)).contains tool_name = true)
    (hfind : tools.find? (fun t => t.name == tool_name) = some schema)
    (hreq : schema.required.all (fun arg => hasArg arguments arg) = true) :
    (cfGetToolCallResponse tools
        { response := ""
          tool_calls := [{ name := some tool_name, arguments := arguments }] } =
      { response := "", tool_calls := [{ name := tool_name, arguments := arguments }] }) ∧
    isNormalizedProviderResponse (providerResultToPyVal (cfGetToolCallResponse tools
        { response := ""
          tool_calls := [{ name := some tool_name, arguments := arguments }] })) = true ∧
    (geminiGetToolCallResponse tools
        { candidates := [{ content := some [{ text := "", function_call := some fc }] }] } =
      { response := ""
        tool_calls := [{ name := fc.name, arguments := coerceArgs fc.args }] }) ∧
    isNormalizedProviderResponse (providerResultToPyVal (geminiGetToolCallResponse tools
        { candidates := [{ content := some [{ text := "", function_call := some fc }] }] })) = true ∧
    (∀ payload : PyVal, openaiGetToolCallResponse payload = payload) := by
  refine ⟨?_, providerResultToPyVal_normalized _, rfl,
    providerResultToPyVal_normalized _, fun _ => rfl⟩
  simp only [cfGetToolCallResponse, cfValidateLoop, hmem, hfind, hreq,
    if_true, List.isEmpty_cons, Bool.false_eq_true, if_false, eq_self_iff_true]

/-- C2 amended witness: a stock-price tool call with its required symbol
argument is normalized to a single tool call request with empty response
text by both Cloudflare and Gemini. -/
theorem cf_gemini_single_tool_call_normalized_witness :
    (cfGetToolCallResponse demoToolSchemas
        { response := ""
          tool_calls := [{ name := some "getCurrentStockPrice",
                           arguments := [("symbol", .vStr "AAPL")] }] } =
      { response := ""
        tool_calls := [{ name := "getCurrentStockPrice"
                         arguments := [("symbol", .vStr "AAPL")] }] }) ∧
    (geminiGetToolCallResponse demoToolSchemas geminiSingleCallResponse =
      { response := ""
        tool_calls := [{ name := "getCurrentStockPrice"
                         arguments := [("symbol", .vStr "AAPL")] }] }) := by
  have h := cf_gemini_single_tool_call_normalized demoToolSchemas
    "getCurrentStockPrice" [("symbol", .vStr "AAPL")]
    { name := "getCurrentStockPrice", required := ["symbol"] }
    { name := "getCurrentStockPrice", args := .asDict [("symbol", .vStr "AAPL")] }
    rfl rfl rfl
  exact ⟨h.1, h.2.2.1⟩

/-- C3 counterexample: GeminiProvider does not validate returned tool calls:
a call naming a tool absent from the tools list sent, and a call missing the
known tool's required symbol argument, both survive into the output instead
of being dropped. -/
theorem gemini_emits_invalid_tool_calls :
    (geminiGetToolCallResponse demoToolSchemas geminiInvalidResponse).tool_calls =
      [{ name := "bogusTool", arguments := [] },
       { name := "getCurrentStockPrice", arguments := [] }] ∧
    (demoToolSchemas.map (fun t => t.name)).contains "bogusTool" = false ∧
    hasArg [] "symbol" = false :=
  ⟨rfl, rfl, rfl⟩

/-- C3 amended: only CloudflareProvider validates: every tool call in its
valid set names a tool of the request's tools list and satisfies that tool's
required list (unknown-name and missing-required calls are silently
dropped, possibly leaving zero, with no exception); the Gemini extraction
never consults the tools list and the OpenAI adapter returns the upstream
payload unchanged, so neither drops anything. -/
theorem cloudflare_valid_tool_calls_validated
    (tools : List ToolSchema) (data : CFUpstream) :
    (∀ c ∈ (cfGetToolCallResponse tools data).tool_calls,
      ∃ schema, schema ∈ tools ∧ schema.name = c.name ∧
        schema.required.all (fun arg => hasArg c.arguments arg) = true) ∧
    (∀ (tools2 : List ToolSchema) (resp : GeminiResponse),
      geminiGetToolCallResponse tools resp = geminiGetToolCallResponse tools2 resp) ∧
    (∀ payload : PyVal, openaiGetToolCallResponse payload = payload) := by
  refine ⟨?_, fun _ _ => rfl, fun _ => rfl⟩
  intro c hc
  exact cfValidateLoop_mem tools data.tool_calls c hc

/-- C3 amended witness: on an upstream batch holding a bogus-name call, a
missing-argument call and a valid call, the single surviving Cloudflare
call is validated. -/
theorem cloudflare_valid_tool_calls_validated_witness :
    (cfGetToolCallResponse demoToolSchemas
      { response := ""
        tool_calls := [{ name := some "bogusTool", arguments := [] },
                       { name := some "getCurrentStockPrice", arguments := [] },
                       { name := some "getCurrentStockPrice",
                         arguments := [("symbol", .vStr "AAPL")] }] }).tool_calls =
      [{ name := "getCurrentStockPrice", arguments := [("symbol", .vStr "AAPL")] }] ∧
    (∃ schema, schema ∈ demoToolSchemas ∧
      schema.name = "getCurrentStockPrice" ∧
      schema.required.all
        (fun arg => hasArg [("symbol", PyVal.vStr "AAPL")] arg) = true) := by
  refine ⟨rfl, ?_⟩
  have h := (cloudflare_valid_tool_calls_validated demoToolSchemas
    { response := ""
      tool_calls := [{ name := some "bogusTool", arguments := [] },
                     { name := some "getCurrentStockPrice", arguments := [] },
                     { name := some "getCurrentStockPrice",
                       arguments := [("symbol", .vStr "AAPL")] }] }).1
    { name := "getCurrentStockPrice", arguments := [("symbol", .vStr "AAPL")] }
    (List.mem_singleton_self _)
  exact h

/-- C7: get_friendly_response with an empty user_query or an empty
tool_output raises the validation ValueError with zero provider calls made,
never a silent default string. -/
theorem get_friendly_response_rejects_empty_inputs
    (user_query tool_output : String) (reply : ChatReply)
    (h : user_query = "" ∨ tool_output = "") :
    getFriendlyResponse user_query tool_output reply =
      { providerCalls := 0
        outcome := Except.error "User query and tool output are required" } := by
  rcases h with h | h <;> simp [getFriendlyResponse, h]

/-- C7 witness: an empty user query is rejected before the provider is
consulted. -/
theorem get_friendly_response_rejects_empty_inputs_witness :
    getFriendlyResponse "" "some tool output" (ChatReply.rStr "hi") =
      { providerCalls := 0
        outcome := Except.error "User query and tool output are required" } :=
  get_friendly_response_rejects_empty_inputs "" "some tool output"
    (ChatReply.rStr "hi") (Or.inl rfl)

/-- C8 counterexample: a plain empty string from the provider is not
returned stripped as the claim states; the falsy-reply guard turns it into
the fixed no-response apology, which is not the empty string. -/
theorem get_friendly_response_empty_string_reply_apology :
    getFriendlyResponse "What tools?" "tool output" (ChatReply.rStr "") =
      { providerCalls := 1, outcome := Except.ok apologyNoResponse } ∧
    apologyNoResponse ≠ "" :=
  ⟨rfl, by decide⟩

/-- C8 amended: get_friendly_response handles the three reply shapes as
follows: a non-empty plain string is returned stripped; a dict of shape
result/response holding a non-empty string yields that string stripped; an
unexpected truthy reply type yields the fixed bad-format apology without
raising; an empty or otherwise falsy reply of any shape yields the fixed
no-response apology rather than the empty string. -/
theorem get_friendly_response_three_shapes
    (user_query tool_output : String)
    (hq : user_query ≠ "") (ht : tool_output ≠ "") :
    (∀ s : String, s ≠ "" →
      getFriendlyResponse user_query tool_output (ChatReply.rStr s) =
        { providerCalls := 1, outcome := Except.ok (pyStrip s) }) ∧
    (∀ s : String, s ≠ "" →
      getFriendlyResponse user_query tool_output
          (ChatReply.rDict [("result", .vDict [("response", .vStr s)])]) =
        { providerCalls := 1, outcome := Except.ok (pyStrip s) }) ∧
    (getFriendlyResponse user_query tool_output (ChatReply.rOther true) =
      { providerCalls := 1, outcome := Except.ok apologyBadFormat }) ∧
    (∀ reply : ChatReply, chatReplyTruthy reply = false →
      getFriendlyResponse user_query tool_output reply =
        { providerCalls := 1, outcome := Except.ok apologyNoResponse }) := by
  refine ⟨?_, ?_, ?_, ?_⟩
  · intro s hs
    simp [getFriendlyResponse, hq, ht, handleChatReply, chatReplyTruthy, hs,
      validateResult]
  · intro s hs
    simp [getFriendlyResponse, hq, ht, handleChatReply, chatReplyTruthy, getD,
      validateResult, hs]
  · simp [getFriendlyResponse, hq, ht, handleChatReply, chatReplyTruthy]
  · intro reply hreply
    simp [getFriendlyResponse, hq, ht, handleChatReply, hreply]

/-- C8 amended witness: the three shapes at concrete inputs: a padded
string is stripped, the dict shape yields its inner string stripped, and an
unexpected type yields the bad-format apology. -/
theorem get_friendly_response_three_shapes_witness :
    getFriendlyResponse "q" "out" (ChatReply.rStr "  hi there  ") =
      { providerCalls := 1, outcome := Except.ok "hi there" } ∧
    getFriendlyResponse "q" "out"
        (ChatReply.rDict [("result", .vDict [("response", .vStr "answer")])]) =
      { providerCalls := 1, outcome := Except.ok "answer" } ∧
    getFriendlyResponse "q" "out" (ChatReply.rOther true) =
      { providerCalls := 1, outcome := Except.ok apologyBadFormat } := by
  have h := get_friendly_response_three_shapes "q" "out" (by decide) (by decide)
  exact ⟨h.1 "  hi there  " (by decide), h.2.1 "answer" (by decide), h.2.2.1⟩

/-- C9: the Gemini argument-coercion step is total and never fails the
call: a dict container is kept, a convertible container is converted, a
failed conversion falls back to the empty mapping, and a function_call part
is always emitted as a tool call whatever its args container was. -/
theorem gemini_arg_coercion_total
    (tools : List ToolSchema) (pre post : List GeminiPart)
    (p : GeminiPart) (fc : GeminiFunctionCall)
    (hfc : p.function_call = some fc) :
    ((geminiGetToolCallResponse tools
        { candidates := [{ content := some (pre ++ p :: post) }] }).tool_calls =
      geminiCollectCalls pre ++
        ({ name := fc.name, arguments := coerceArgs fc.args } : ToolCall) ::
          geminiCollectCalls post) ∧
    coerceArgs GeminiArgs.unconvertible = [] ∧
    (∀ kvs, coerceArgs (GeminiArgs.asDict kvs) = kvs) ∧
    (∀ kvs, coerceArgs (GeminiArgs.convertible kvs) = kvs) := by
  refine ⟨?_, rfl, fun _ => rfl, fun _ => rfl⟩
  simp [geminiGetToolCallResponse, geminiCollectCalls_append, geminiCollectCalls, hfc]

/-- C9 witness: a function call whose args container fails dict conversion
is still emitted, with the empty argument mapping. -/
theorem gemini_arg_coercion_total_witness :
    (geminiGetToolCallResponse demoToolSchemas geminiUnconvertibleResponse).tool_calls =
      [{ name := "getCurrentStockPrice", arguments := [] }] := by
  have h := (gemini_arg_coercion_total demoToolSchemas [] []
    { text := ""
      function_call := some { name := "getCurrentStockPrice", args := .unconvertible } }
    { name := "getCurrentStockPrice", args := .unconvertible } rfl).1
  exact h

/-- C10: the Cloudflare adapter's normalized result never carries both tool
calls and a non-empty response text: whenever the valid tool_calls list is
non-empty, the response field is the empty string. -/
theorem cloudflare_tool_calls_imply_empty_response
    (tools : List ToolSchema) (data : CFUpstream)
    (h : (cfGetToolCallResponse tools data).tool_calls ≠ []) :
    (cfGetToolCallResponse tools data).response = "" := by
  cases hv : cfValidateLoop tools data.tool_calls with
  | nil =>
    exact absurd (by simp [cfGetToolCallResponse, hv]) h
  | cons a l =>
    simp [cfGetToolCallResponse, hv]

/-- C10 witness: with one surviving valid call, the upstream response text
is blanked in the normalized result. -/
theorem cloudflare_tool_calls_imply_empty_response_witness :
    (cfGetToolCallResponse demoToolSchemas
      { response := "some upstream text"
        tool_calls := [{ name := some "getCurrentStockPrice",
                         arguments := [("symbol", .vStr "AAPL")] }] }).response = "" :=
  cloudflare_tool_calls_imply_empty_response demoToolSchemas
    { response := "some upstream text"
      tool_calls := [{ name := some "getCurrentStockPrice",
                       arguments := [("symbol", .vStr "AAPL")] }] }
    (List.cons_ne_nil _ _)

end ShellSense
